import Mathlib

/-!
Verification of the Firewall365 agent tunnel module (src/agent/tunnel.py)
against its natural-language specification.

The Python module is shallowly embedded below. Bytes are modelled as
natural numbers below 256, byte strings as lists of naturals, Python
strings as Lean strings or lists of characters. Stateful objects
(SSHSession, TunnelClient) are modelled as structures, and methods as
pure functions from state to state plus the lists of observable effects
(messages sent, data forwarded to callbacks, log events). Operating
system interactions (pty.fork, os.read, os.write) are modelled by
explicit parameters describing their outcome.
-/

/-- Boolean substring test: models the Python expressions
`pat in data` (for bytes) and the occurrence scanning done by
`str.replace`. True when `pat` occurs contiguously inside `l`. -/
def containsSeq {α : Type} [BEq α] (pat : List α) : List α → Bool
  | [] => pat.isEmpty
  | a :: rest => pat.isPrefixOf (a :: rest) || containsSeq pat rest

/-- Models Python `s.encode()` for the ASCII strings used by the module:
the list of code points of the characters of `s`. -/
def strBytes (s : String) : List Nat := s.toList.map Char.toNat

/-- The two password-prompt fragments from tunnel.py line 92:
`b'assword:' in data or b'assword for' in data`. -/
def promptMatch (data : List Nat) : Bool :=
  containsSeq (strBytes "assword:") data || containsSeq (strBytes "assword for") data

/-- State of one `SSHSession` object (tunnel.py lines 37-52).
The `on_data`/`on_close` callbacks are not stored; the events they
would receive are returned by the loop functions below. The reader
thread itself is modelled by `read_loop`. -/
structure SSHSession where
  session_id : String
  username : String
  password : String
  running : Bool
  password_sent : Bool
  master_fd : Option Nat
  pid : Option Nat
deriving DecidableEq, Repr

/-- `SSHSession.__init__` (lines 40-52): flags start false, no pty yet. -/
def mkSession (sid u p : String) : SSHSession :=
  { session_id := sid, username := u, password := p,
    running := false, password_sent := false, master_fd := none, pid := none }

/-- `SSHSession.connect` (lines 54-79): `pty.fork` either yields a child
pid and master fd (modelled by `some (pid, fd)`) and the session becomes
running, or raises (modelled by `none`) and `connect` returns `False`. -/
def SSHSession.connect (s : SSHSession) : Option (Nat × Nat) → SSHSession × Bool
  | some (pid, fd) =>
      ({ s with pid := some pid, master_fd := some fd, running := true }, true)
  | none => (s, false)

/-- `SSHSession.close` (lines 135-154): clears the running flag,
releases the master fd and terminates the child. It does not invoke
the close callback (only the reader loop exit does, line 112). -/
def SSHSession.close (s : SSHSession) : SSHSession :=
  { s with running := false, master_fd := none, pid := none }

/-- Outcome of the `os.write` performed for credential injection
(line 94): success, `OSError` with `errno == 5`, or any other raised
exception. -/
inductive WriteOutcome
  | ok
  | errFive
  | errOther
deriving DecidableEq, Repr

/-- Observable result of the body of `SSHSession._read_loop` for one
chunk delivered by `os.read` (lines 90-110). `ptyWrites` are the byte
strings written back into the terminal (credential injection),
`forwarded` the chunks passed to the `on_data` callback, `debugLogged`
whether the `except Exception` branch logged, and `stop` whether the
loop breaks after this chunk. -/
structure ChunkResult where
  sess : SSHSession
  ptyWrites : List (List Nat)
  forwarded : List (List Nat)
  debugLogged : Bool
  stop : Bool
deriving DecidableEq, Repr

/-- One iteration of the reader loop body on chunk `data` (lines 90-110).
Empty `data` means EOF: the loop stops (lines 99-101). A chunk matching
the password prompt while the credential was not yet sent triggers the
injection write (lines 92-96); `w` describes that write's outcome. An
`OSError` with errno 5 stops the loop silently (lines 102-105); any
other exception is logged at debug level and stops the loop
(lines 107-110). All other chunks are forwarded verbatim (line 98). -/
def read_chunk (s : SSHSession) (data : List Nat) (w : WriteOutcome) : ChunkResult :=
  if data = [] then
    { sess := { s with running := false }, ptyWrites := [], forwarded := [],
      debugLogged := false, stop := true }
  else if !s.password_sent && promptMatch data then
    match w with
    | .ok =>
        { sess := { s with password_sent := true },
          ptyWrites := [strBytes s.password ++ [10]],
          forwarded := [data], debugLogged := false, stop := false }
    | .errFive =>
        { sess := { s with running := false }, ptyWrites := [], forwarded := [],
          debugLogged := false, stop := true }
    | .errOther =>
        { sess := { s with running := false }, ptyWrites := [], forwarded := [],
          debugLogged := true, stop := true }
  else
    { sess := s, ptyWrites := [], forwarded := [data], debugLogged := false,
      stop := false }

/-- Accumulated observable behaviour of one run of `_read_loop`
(lines 81-112). `closeEvents` counts invocations of the `on_close`
callback (line 112, reached once, after the while loop exits). -/
structure LoopResult where
  sess : SSHSession
  ptyWrites : List (List Nat)
  forwarded : List (List Nat)
  closeEvents : Nat
deriving DecidableEq, Repr

/-- `SSHSession._read_loop` (lines 81-112) driven by a finite schedule of
read events: each element is the chunk `os.read` returned together with
the outcome of the credential write, should one be attempted. The while
condition `self.running and self.master_fd is not None` (line 85) is
checked before each event; `self.on_close(self.session_id)` (line 112)
runs exactly once after the loop, whatever the exit path. -/
def read_loop : SSHSession → List (List Nat × WriteOutcome) → LoopResult
  | s, [] => { sess := s, ptyWrites := [], forwarded := [], closeEvents := 1 }
  | s, (d, w) :: rest =>
    if s.running && s.master_fd.isSome then
      let r := read_chunk s d w
      if r.stop then
        { sess := r.sess, ptyWrites := r.ptyWrites, forwarded := r.forwarded,
          closeEvents := 1 }
      else
        let t := read_loop r.sess rest
        { sess := t.sess, ptyWrites := r.ptyWrites ++ t.ptyWrites,
          forwarded := r.forwarded ++ t.forwarded, closeEvents := t.closeEvents }
    else
      { sess := s, ptyWrites := [], forwarded := [], closeEvents := 1 }

/-- The base64 alphabet used by Python `base64.b64encode`/`b64decode`
(RFC 4648). The library is external to the repository; it is embedded
here by its standard semantics. -/
def b64Alphabet : List Char :=
  "ABCDEFGHIJKLMNOPQRSTUVWXYZabcdefghijklmnopqrstuvwxyz0123456789+/".toList

/-- Character for a six-bit group. -/
def encChar (n : Nat) : Char := b64Alphabet.getD n 'A'

/-- Six-bit group for an alphabet character. -/
def decChar (c : Char) : Nat := b64Alphabet.indexOf c

/-- `base64.b64encode` on a byte string, as the text it yields after
`.decode('utf-8')` (tunnel.py line 278): three input bytes become four
alphabet characters; a final group of one or two bytes is padded
with `'='`. -/
def b64encodeBytes : List Nat → List Char
  | [] => []
  | [a] => [encChar (a / 4), encChar (a % 4 * 16), '=', '=']
  | [a, b] => [encChar (a / 4), encChar (a % 4 * 16 + b / 16), encChar (b % 16 * 4), '=']
  | a :: b :: c :: rest =>
      encChar (a / 4) :: encChar (a % 4 * 16 + b / 16)
        :: encChar (b % 16 * 4 + c / 64) :: encChar (c % 64)
        :: b64encodeBytes rest

/-- `base64.b64decode` (tunnel.py line 227) on well-padded input: four
characters become three bytes, `'='` padding marking a final group of
one or two bytes. -/
def b64decodeBytes : List Char → List Nat
  | c1 :: c2 :: c3 :: c4 :: rest =>
    if c3 = '=' then
      [decChar c1 * 4 + decChar c2 / 16]
    else if c4 = '=' then
      [decChar c1 * 4 + decChar c2 / 16, decChar c2 % 16 * 16 + decChar c3 / 4]
    else
      (decChar c1 * 4 + decChar c2 / 16)
        :: (decChar c2 % 16 * 16 + decChar c3 / 4)
        :: (decChar c3 % 4 * 64 + decChar c4)
        :: b64decodeBytes rest
  | _ => []

/-- State of the `TunnelClient` relevant to the claims (lines 157-168):
the session registry (a dict from session id to `SSHSession`), the
current reconnect delay and the running flag. -/
structure TunnelState where
  ssh_sessions : List (String × SSHSession)
  reconnect_delay : Nat
  running : Bool
deriving DecidableEq, Repr

/-- `TunnelClient.__init__` (lines 160-168): empty registry, delay 5. -/
def initTunnelState : TunnelState :=
  { ssh_sessions := [], reconnect_delay := 5, running := true }

/-- `self.max_reconnect_delay = 60` (line 168). -/
def max_reconnect_delay : Nat := 60

/-- Dict lookup `self.ssh_sessions[sid]` guarded by `sid in self.ssh_sessions`. -/
def dictFind (reg : List (String × SSHSession)) (sid : String) : Option SSHSession :=
  (reg.find? (fun p => p.1 == sid)).map (fun p => p.2)

/-- Membership test `sid in self.ssh_sessions`. -/
def dictMem (reg : List (String × SSHSession)) (sid : String) : Bool :=
  (dictFind reg sid).isSome

/-- `del self.ssh_sessions[sid]`. -/
def dictErase (reg : List (String × SSHSession)) (sid : String) :
    List (String × SSHSession) :=
  reg.filter (fun p => p.1 != sid)

/-- An inbound server message (the JSON object of `_on_message`,
lines 207-247). Fields other than the id are optional, as with
`msg.get`; messages lacking a session id are not modelled (every claim
concerns messages that carry one). -/
structure Msg where
  type : Option String := none
  sessionId : String := ""
  username : Option String := none
  password : Option String := none
  data : Option String := none
  rows : Option Nat := none
  cols : Option Nat := none
deriving DecidableEq, Repr

/-- An outbound client message built by `_send_message` callers. -/
inductive OutMsg
  | ssh_data (sessionId : String) (data : List Char)
  | ssh_closed (sessionId : String)
  | ssh_error (sessionId : String) (error : String)
  | pong
deriving DecidableEq, Repr

/-- Observable result of one inbound-message dispatch: the new client
state, outbound messages, warning-level log count, bytes written into
sessions (`SSHSession.send`), and session objects that `close()` was
called on. -/
structure DispatchResult where
  st : TunnelState
  out : List OutMsg
  warnings : Nat
  ptySends : List (String × List Nat)
  closed : List SSHSession
deriving DecidableEq, Repr

/-- Dispatch result with no effects. -/
def noEffects (st : TunnelState) : DispatchResult :=
  { st := st, out := [], warnings := 0, ptySends := [], closed := [] }

/-- `TunnelClient._open_ssh_session` (lines 249-271). `spawn` is the
outcome of `pty.fork` inside `SSHSession.connect`. A duplicate id is
ignored with a warning (lines 251-253); on connect success the session
is registered (lines 264-265); on failure an `ssh_error` message is
emitted (lines 266-271) and nothing is registered. -/
def open_ssh_session (st : TunnelState) (sid u p : String)
    (spawn : Option (Nat × Nat)) : DispatchResult :=
  if dictMem st.ssh_sessions sid then
    { st := st, out := [], warnings := 1, ptySends := [], closed := [] }
  else
    let (sess, ok) := (mkSession sid u p).connect spawn
    if ok then
      { st := { st with ssh_sessions := st.ssh_sessions ++ [(sid, sess)] },
        out := [], warnings := 0, ptySends := [], closed := [] }
    else
      { st := st, out := [.ssh_error sid "Failed to start SSH session"],
        warnings := 0, ptySends := [], closed := [] }

/-- `TunnelClient._on_message` (lines 207-247): the `elif` dispatch on
`msg.get('type')`. `connected` resets the reconnect delay (line 215);
`ssh_open` applies the `'root'`/`''` defaults (lines 218-220);
`ssh_data` base64-decodes and writes into the addressed session if
registered (lines 223-228; `SSHSession.send`, lines 114-121, writes only
while the fd is present and the session runs); `ssh_resize` only touches
the terminal (lines 230-235); `ssh_close` closes and deletes the
addressed session if registered, silently otherwise (lines 237-241);
`ping` answers `pong` (lines 243-244); anything else is ignored. -/
def on_message (st : TunnelState) (msg : Msg) (spawn : Option (Nat × Nat)) :
    DispatchResult :=
  if msg.type = some "connected" then
    noEffects { st with reconnect_delay := 5 }
  else if msg.type = some "ssh_open" then
    open_ssh_session st msg.sessionId (msg.username.getD "root")
      (msg.password.getD "") spawn
  else if msg.type = some "ssh_data" then
    match dictFind st.ssh_sessions msg.sessionId with
    | some sess =>
        { st := st, out := [], warnings := 0,
          ptySends :=
            if sess.master_fd.isSome && sess.running then
              [(msg.sessionId, b64decodeBytes (msg.data.getD "").toList)]
            else [],
          closed := [] }
    | none => noEffects st
  else if msg.type = some "ssh_resize" then
    noEffects st
  else if msg.type = some "ssh_close" then
    match dictFind st.ssh_sessions msg.sessionId with
    | some sess =>
        { st := { st with ssh_sessions := dictErase st.ssh_sessions msg.sessionId },
          out := [], warnings := 0, ptySends := [],
          closed := [SSHSession.close sess] }
    | none => noEffects st
  else if msg.type = some "ping" then
    { st := st, out := [.pong], warnings := 0, ptySends := [], closed := [] }
  else
    noEffects st

/-- `TunnelClient._ssh_data_callback` (lines 273-279): frames session
output as an `ssh_data` message with base64 text payload. -/
def ssh_data_callback (sid : String) (data : List Nat) : OutMsg :=
  .ssh_data sid (b64encodeBytes data)

/-- `TunnelClient._on_close` (lines 302-307): on transport loss, call
`close()` on every registered session, then clear the registry. -/
def on_close_handler (st : TunnelState) : TunnelState × List SSHSession :=
  ({ st with ssh_sessions := [] },
   st.ssh_sessions.map (fun p => SSHSession.close p.2))

/-- One pass of the bottom of the reconnect loop (lines 344-347): sleep
for the current delay, then double it, capped at `max_reconnect_delay`.
Returns the slept duration and the updated state. -/
def run_cycle (st : TunnelState) : Nat × TunnelState :=
  (st.reconnect_delay,
   { st with reconnect_delay := min (st.reconnect_delay * 2) max_reconnect_delay })

/-- The sleeps performed across `n` consecutive reconnect cycles. -/
def run_sleeps : TunnelState → Nat → List Nat
  | _, 0 => []
  | st, n + 1 => (run_cycle st).1 :: run_sleeps (run_cycle st).2 n

/-- `TunnelClient.run` (lines 313-349) at the granularity the claims
need. The bearer token is read from the configuration exactly once, at
startup (line 317, time 0 of `tokenAt`); when it is empty one error is
logged and the method returns before entering the loop (lines 318-320),
so no connection attempt is ever made, whatever the token later
becomes. Otherwise the while loop performs its connect cycles; `cycles`
is how many the environment allows before shutdown. Result: (count of
missing-token error logs, count of connection attempts). -/
def run_tunnel (tokenAt : Nat → String) (cycles : Nat) : Nat × Nat :=
  if tokenAt 0 = "" then (1, 0) else (0, cycles)

/-- Python `str.replace(pat, rep)` on character lists, with explicit
fuel for structural recursion: scans left to right; at each position a
match of `pat` is replaced by `rep` and scanning resumes after the
consumed occurrence (the replacement is not rescanned). Each step
consumes at least one character, so fuel equal to the length of the
scanned text suffices. The module never calls `replace` with an empty
pattern, so that case needs no special handling beyond the guard. -/
def replaceFuel (pat rep : List Char) : Nat → List Char → List Char
  | 0, l => l
  | _ + 1, [] => []
  | fuel + 1, c :: rest =>
    if pat ≠ [] ∧ pat.isPrefixOf (c :: rest) then
      rep ++ replaceFuel pat rep fuel ((c :: rest).drop pat.length)
    else
      c :: replaceFuel pat rep fuel rest

/-- Python `s.replace(pat, rep)`. -/
def replaceAll (pat rep s : List Char) : List Char := replaceFuel pat rep s.length s

/-- `TunnelClient._get_ws_url` (lines 197-205): substitute the scheme,
then `ws_base.replace('/api', '')` — which removes every occurrence of
the substring `/api`, wherever it appears — then append the fixed path
and query string carrying the agent type and the bearer token. -/
def get_ws_url (endpoint token : List Char) : List Char :=
  let ws_base := replaceAll "http://".toList "ws://".toList
    (replaceAll "https://".toList "wss://".toList endpoint)
  let ws_base2 := replaceAll "/api".toList [] ws_base
  ws_base2 ++ "/ws?type=agent&token=".toList ++ token

/-- A freshly connected pty-shell session used as a concrete test
fixture: credential not yet sent. -/
def demoSession : SSHSession :=
  { session_id := "s1", username := "root", password := "hunter2",
    running := true, password_sent := false, master_fd := some 3, pid := some 42 }

/-- A chunk containing a password prompt. -/
def promptChunk : List Nat := strBytes "Password: "

/-- Two consecutive prompt chunks with successful writes. -/
def demoChunks : List (List Nat × WriteOutcome) :=
  [(promptChunk, .ok), (promptChunk, .ok)]

/-- A client state with one registered session. -/
def stWith1 : TunnelState :=
  { ssh_sessions := [("s1", demoSession)], reconnect_delay := 5, running := true }

/-- `ssh_close` for an identifier that is not registered. -/
def ghostCloseMsg : Msg := { type := some "ssh_close", sessionId := "ghost" }

/-- A token source that is empty at startup and set afterwards. -/
def tokenLater : Nat → String := fun t => if t = 0 then "" else "tok"

theorem decChar_encChar {n : Nat} (h : n < 64) : decChar (encChar n) = n := by
  have hall : (List.range 64).all (fun k => decChar (encChar k) == k) = true := by decide
  have h2 := List.all_eq_true.mp hall n (List.mem_range.mpr h)
  simpa using h2

theorem encChar_ne_pad {n : Nat} (h : n < 64) : encChar n ≠ '=' := by
  have hall : (List.range 64).all (fun k => !(encChar k == '=')) = true := by decide
  have h2 := List.all_eq_true.mp hall n (List.mem_range.mpr h)
  simpa using h2

theorem b64_roundtrip : ∀ (bs : List Nat), (∀ x ∈ bs, x < 256) →
    b64decodeBytes (b64encodeBytes bs) = bs
  | [], _ => rfl
  | [a], h => by
      have ha : a < 256 := h a (by simp)
      simp only [b64encodeBytes, b64decodeBytes]
      rw [if_pos trivial, decChar_encChar (by omega), decChar_encChar (by omega)]
      simp only [List.cons.injEq, and_true]
      omega
  | [a, b], h => by
      have ha : a < 256 := h a (by simp)
      have hb : b < 256 := h b (by simp)
      simp only [b64encodeBytes, b64decodeBytes]
      rw [if_neg (encChar_ne_pad (by omega)), if_pos trivial, decChar_encChar (by omega),
        decChar_encChar (by omega), decChar_encChar (by omega)]
      simp only [List.cons.injEq, and_true]
      exact ⟨by omega, by omega⟩
  | a :: b :: c :: rest, h => by
      have ha : a < 256 := h a (by simp)
      have hb : b < 256 := h b (by simp)
      have hc : c < 256 := h c (by simp)
      have ih := b64_roundtrip rest (fun x hx => h x (by simp [hx]))
      simp only [b64encodeBytes, b64decodeBytes]
      rw [if_neg (encChar_ne_pad (by omega)), if_neg (encChar_ne_pad (by omega)),
        decChar_encChar (by omega), decChar_encChar (by omega),
        decChar_encChar (by omega), decChar_encChar (by omega), ih]
      simp only [List.cons.injEq, and_true]
      exact ⟨by omega, by omega, by omega⟩

/-- C2: for every byte sequence, of any length including zero and with
any byte values including 0x00 and 0xFF, decoding the base64 text
produced by the outbound data encoding yields exactly the input bytes. -/
theorem c2_base64_roundtrip (bs : List Nat) (h : ∀ x ∈ bs, x < 256) :
    b64decodeBytes (b64encodeBytes bs) = bs :=
  b64_roundtrip bs h

theorem c2_base64_roundtrip_witness :
    ((∀ x ∈ ([] : List Nat), x < 256) ∧ b64decodeBytes (b64encodeBytes []) = [])
    ∧ ((∀ x ∈ [0, 255, 16, 1], x < 256)
       ∧ b64decodeBytes (b64encodeBytes [0, 255, 16, 1]) = [0, 255, 16, 1]) :=
  ⟨⟨by simp, c2_base64_roundtrip [] (by simp)⟩,
   ⟨by decide, c2_base64_roundtrip [0, 255, 16, 1] (by decide)⟩⟩

theorem read_chunk_cases (s : SSHSession) (d : List Nat) (w : WriteOutcome) :
    ((read_chunk s d w).ptyWrites = []
      ∧ (read_chunk s d w).sess.password_sent = s.password_sent)
    ∨ (s.password_sent = false ∧ promptMatch d = true ∧ w = WriteOutcome.ok
       ∧ (read_chunk s d w).ptyWrites = [strBytes s.password ++ [10]]
       ∧ (read_chunk s d w).sess.password_sent = true
       ∧ (read_chunk s d w).forwarded = [d]
       ∧ (read_chunk s d w).stop = false) := by
  by_cases hd : d = []
  · left; simp [read_chunk, hd]
  · by_cases hcond : (!s.password_sent && promptMatch d) = true
    · have h1 : s.password_sent = false := by
        have := (Bool.and_eq_true _ _).mp hcond
        simpa using this.1
      have h2 : promptMatch d = true := ((Bool.and_eq_true _ _).mp hcond).2
      cases w
      · right
        exact ⟨h1, h2, rfl, by simp [read_chunk, hd, hcond],
          by simp [read_chunk, hd, hcond], by simp [read_chunk, hd, hcond],
          by simp [read_chunk, hd, hcond]⟩
      · left; simp [read_chunk, hd, hcond]
      · left; simp [read_chunk, hd, hcond]
    · left; simp [read_chunk, hd, hcond]

theorem read_loop_sent_true : ∀ (s : SSHSession)
    (chunks : List (List Nat × WriteOutcome)), s.password_sent = true →
    (read_loop s chunks).ptyWrites = [] ∧ (read_loop s chunks).sess.password_sent = true
  | s, [], h => ⟨rfl, h⟩
  | s, (d, w) :: rest, h => by
      rcases read_chunk_cases s d w with ⟨hw, hp⟩ | ⟨h1, _⟩
      · simp only [read_loop]
        split
        · split
          · exact ⟨hw, hp.trans h⟩
          · have ih := read_loop_sent_true (read_chunk s d w).sess rest (hp.trans h)
            exact ⟨by simp [hw, ih.1], ih.2⟩
        · exact ⟨rfl, h⟩
      · rw [h] at h1; exact Bool.noConfusion h1

theorem read_loop_writes_le_one : ∀ (s : SSHSession)
    (chunks : List (List Nat × WriteOutcome)), s.password_sent = false →
    (read_loop s chunks).ptyWrites.length ≤ 1
  | _, [], _ => by simp [read_loop]
  | s, (d, w) :: rest, h => by
      simp only [read_loop]
      split
      · split
        · rcases read_chunk_cases s d w with ⟨hw, _⟩ | ⟨_, _, _, hw, _⟩ <;> simp [hw]
        · rcases read_chunk_cases s d w with ⟨hw, hp⟩ | ⟨_, _, _, hw, hp, _⟩
          · have ih := read_loop_writes_le_one (read_chunk s d w).sess rest (hp.trans h)
            simpa [hw] using ih
          · have hrest := (read_loop_sent_true (read_chunk s d w).sess rest hp).1
            simp [hw, hrest]
      · simp

/-- C1: for every pty-shell session started with the credential-sent
flag clear, over any schedule of reads the stored credential is written
into the terminal at most once; at the chunk level an injection happens
only when the flag is still clear and the chunk matches the prompt
pattern, it sets the flag and still forwards the triggering prompt
bytes unchanged to the data callback; once the flag is set it never
reverts, and no later chunk (prompt-matching or not) triggers another
credential write. -/
theorem c1_credential_injection_at_most_once (s : SSHSession)
    (chunks : List (List Nat × WriteOutcome)) (h : s.password_sent = false) :
    (read_loop s chunks).ptyWrites.length ≤ 1
    ∧ (∀ t d w, (read_chunk t d w).ptyWrites ≠ [] →
        t.password_sent = false ∧ promptMatch d = true
        ∧ (read_chunk t d w).sess.password_sent = true
        ∧ (read_chunk t d w).forwarded = [d]
        ∧ (read_chunk t d w).ptyWrites = [strBytes t.password ++ [10]])
    ∧ (∀ t d w, t.password_sent = true →
        (read_chunk t d w).ptyWrites = [] ∧ (read_chunk t d w).sess.password_sent = true)
    ∧ (∀ t chunks2, t.password_sent = true →
        (read_loop t chunks2).ptyWrites = []
        ∧ (read_loop t chunks2).sess.password_sent = true) := by
  refine ⟨read_loop_writes_le_one s chunks h, ?_, ?_, ?_⟩
  · intro t d w hne
    rcases read_chunk_cases t d w with ⟨hw, _⟩ | ⟨h1, h2, _, hw, hp, hf, _⟩
    · exact absurd hw hne
    · exact ⟨h1, h2, hp, hf, hw⟩
  · intro t d w ht
    rcases read_chunk_cases t d w with ⟨hw, hp⟩ | ⟨h1, _⟩
    · exact ⟨hw, hp.trans ht⟩
    · rw [ht] at h1; exact Bool.noConfusion h1
  · intro t chunks2 ht
    exact read_loop_sent_true t chunks2 ht

theorem c1_credential_injection_at_most_once_witness :
    demoSession.password_sent = false
    ∧ (read_loop demoSession demoChunks).ptyWrites.length ≤ 1
    ∧ (read_loop demoSession demoChunks).ptyWrites = [strBytes "hunter2" ++ [10]] :=
  ⟨rfl, (c1_credential_injection_at_most_once demoSession demoChunks rfl).1, by decide⟩

theorem run_sleeps_formula : ∀ (n j : Nat) (st : TunnelState),
    st.reconnect_delay = min (5 * 2 ^ j) 60 →
    run_sleeps st n = (List.range n).map (fun k => min (5 * 2 ^ (j + k)) 60)
  | 0, _, _, _ => by simp [run_sleeps]
  | n + 1, j, st, h => by
      have hnext : (run_cycle st).2.reconnect_delay = min (5 * 2 ^ (j + 1)) 60 := by
        simp only [run_cycle, max_reconnect_delay, h]
        have hp : 5 * 2 ^ (j + 1) = 5 * 2 ^ j * 2 := by ring
        rw [hp]
        omega
      have ih := run_sleeps_formula n (j + 1) (run_cycle st).2 hnext
      have hfun : ∀ k, min (5 * 2 ^ (j + 1 + k)) 60 = min (5 * 2 ^ (j + (k + 1))) 60 := by
        intro k
        rw [show j + 1 + k = j + (k + 1) from by omega]
      simp only [run_sleeps, ih, List.range_succ_eq_map, List.map_cons, List.map_map]
      simp only [List.cons.injEq]
      refine ⟨by simpa [run_cycle] using h, ?_⟩
      simp only [Function.comp_def, Nat.succ_eq_add_one, hfun]

/-- C3: the reconnect delay starts at 5 seconds; each loop cycle sleeps
the current delay then doubles it, capped at 60, so the sleeps over
consecutive failing cycles are 5, 10, 20, 40, 60, 60, ...; a
`connected` message resets the delay to 5. -/
theorem c3_reconnect_backoff :
    initTunnelState.reconnect_delay = 5
    ∧ (∀ n, run_sleeps initTunnelState n
        = (List.range n).map (fun k => min (5 * 2 ^ k) 60))
    ∧ run_sleeps initTunnelState 6 = [5, 10, 20, 40, 60, 60]
    ∧ (∀ (st : TunnelState) (spawn : Option (Nat × Nat)),
        (on_message st { type := some "connected", sessionId := "" } spawn).st.reconnect_delay
          = 5) := by
  refine ⟨rfl, ?_, by decide, ?_⟩
  · intro n
    have hform := run_sleeps_formula n 0 initTunnelState (by decide)
    simpa using hform
  · intro st spawn
    simp [on_message, noEffects]

theorem read_loop_close_once : ∀ (s : SSHSession)
    (chunks : List (List Nat × WriteOutcome)), (read_loop s chunks).closeEvents = 1
  | _, [] => rfl
  | s, (d, w) :: rest => by
      simp only [read_loop]
      split
      · split
        · rfl
        · exact read_loop_close_once (read_chunk s d w).sess rest
      · rfl

/-- C4: when the transport closes while K sessions are registered,
close() is applied to every one of the K sessions (each is left not
running, with fd and pid released), the registry is empty immediately
afterwards, close() is idempotent, and each session's reader loop
invokes the close callback exactly once. -/
theorem c4_transport_loss_closes_all (st : TunnelState) :
    (on_close_handler st).1.ssh_sessions = []
    ∧ (on_close_handler st).2.length = st.ssh_sessions.length
    ∧ (∀ s ∈ (on_close_handler st).2,
        s.running = false ∧ s.master_fd = none ∧ s.pid = none)
    ∧ (∀ s : SSHSession, SSHSession.close (SSHSession.close s) = SSHSession.close s)
    ∧ (∀ (s : SSHSession) (chunks : List (List Nat × WriteOutcome)),
        (read_loop s chunks).closeEvents = 1) := by
  refine ⟨rfl, by simp [on_close_handler], ?_, fun s => rfl, read_loop_close_once⟩
  intro s hs
  simp only [on_close_handler, List.mem_map] at hs
  obtain ⟨p, _, hp⟩ := hs
  rw [← hp]
  exact ⟨rfl, rfl, rfl⟩

theorem c4_transport_loss_closes_all_witness :
    (on_close_handler stWith1).1.ssh_sessions = []
    ∧ (SSHSession.close demoSession ∈ (on_close_handler stWith1).2
       ∧ (SSHSession.close demoSession).running = false)
    ∧ (read_loop demoSession [(promptChunk, WriteOutcome.ok)]).closeEvents = 1 :=
  ⟨(c4_transport_loss_closes_all stWith1).1,
   ⟨by decide,
    ((c4_transport_loss_closes_all stWith1).2.2.1 (SSHSession.close demoSession)
      (by decide)).1⟩,
   (c4_transport_loss_closes_all stWith1).2.2.2.2 demoSession
     [(promptChunk, WriteOutcome.ok)]⟩

/-- C6: when opening a session fails at spawn time, the client emits
exactly one ssh_error message carrying that session id and an error
text, does not add the id to the registry (the state is unchanged), and
the dispatch performs no retry. -/
theorem c6_spawn_failure_single_error (st : TunnelState) (sid u p : String)
    (h : dictMem st.ssh_sessions sid = false) :
    on_message st
        { type := some "ssh_open", sessionId := sid,
          username := some u, password := some p } none
      = { st := st, out := [OutMsg.ssh_error sid "Failed to start SSH session"],
          warnings := 0, ptySends := [], closed := [] } := by
  simp [on_message, open_ssh_session, h, SSHSession.connect]

theorem c6_spawn_failure_single_error_witness :
    dictMem initTunnelState.ssh_sessions "s9" = false
    ∧ on_message initTunnelState
        { type := some "ssh_open", sessionId := "s9",
          username := some "root", password := some "pw" } none
      = { st := initTunnelState,
          out := [OutMsg.ssh_error "s9" "Failed to start SSH session"],
          warnings := 0, ptySends := [], closed := [] } :=
  ⟨by decide, c6_spawn_failure_single_error initTunnelState "s9" "root" "pw" (by decide)⟩

/-- C9 counterexample: a close message for the unregistered id "ghost"
leaves the state unchanged but logs no warning at all, contradicting
the claim that a warning is logged. -/
theorem c9_unregistered_close_counterexample :
    (on_message stWith1 ghostCloseMsg none).st = stWith1
    ∧ ¬ (1 ≤ (on_message stWith1 ghostCloseMsg none).warnings) := by decide

/-- C9 (amended): receiving a close message whose session id is not
registered causes no state change, emits nothing, closes nothing and
raises no error — and it is silently ignored: no warning is logged. -/
theorem c9_unregistered_close_ignored (st : TunnelState) (sid : String)
    (spawn : Option (Nat × Nat)) (h : dictFind st.ssh_sessions sid = none) :
    on_message st { type := some "ssh_close", sessionId := sid } spawn
      = noEffects st := by
  simp [on_message, h]

theorem c9_unregistered_close_ignored_witness :
    dictFind stWith1.ssh_sessions "ghost" = none
    ∧ on_message stWith1 { type := some "ssh_close", sessionId := "ghost" } none
      = noEffects stWith1 :=
  ⟨by decide, c9_unregistered_close_ignored stWith1 "ghost" none (by decide)⟩

/-- C10: an ssh_open message that omits the username and password fields
still opens the session, with the username defaulting to "root" and the
password to the empty string; the message is not rejected (no error
output, the session is registered). -/
theorem c10_open_defaults (st : TunnelState) (sid : String) (pid fd : Nat)
    (h : dictMem st.ssh_sessions sid = false) :
    on_message st { type := some "ssh_open", sessionId := sid } (some (pid, fd))
      = { st := { st with ssh_sessions := st.ssh_sessions
            ++ [(sid, { session_id := sid, username := "root", password := "",
                        running := true, password_sent := false,
                        master_fd := some fd, pid := some pid })] },
          out := [], warnings := 0, ptySends := [], closed := [] } := by
  simp [on_message, open_ssh_session, h, SSHSession.connect, mkSession]

theorem c10_open_defaults_witness :
    dictMem initTunnelState.ssh_sessions "s1" = false
    ∧ on_message initTunnelState { type := some "ssh_open", sessionId := "s1" }
        (some (7, 3))
      = { st := { initTunnelState with ssh_sessions :=
            initTunnelState.ssh_sessions
              ++ [("s1", { session_id := "s1", username := "root", password := "",
                           running := true, password_sent := false,
                           master_fd := some 3, pid := some 7 })] },
          out := [], warnings := 0, ptySends := [], closed := [] } :=
  ⟨by decide, c10_open_defaults initTunnelState "s1" 7 3 (by decide)⟩

/-- C7 counterexample: on a prompt-matching chunk with the credential
write raising, the prompt bytes are not forwarded to the data callback
and the session does not stay running — contradicting the claim that
the bytes are still forwarded and the session is not closed. -/
theorem c7_write_failure_counterexample :
    ¬ ((read_chunk demoSession promptChunk WriteOutcome.errOther).forwarded
         = [promptChunk]
       ∧ (read_chunk demoSession promptChunk WriteOutcome.errOther).sess.running
         = true) := by decide

/-- C7 (amended): if writing the stored credential into the terminal
raises, the reader loop stops and the session stops running (its close
path is taken); the triggering prompt bytes are not forwarded; no
credential bytes are recorded as written; the failure is logged (at
debug level) only when the exception is not an errno-5 OSError. -/
theorem c7_write_failure_stops_session (s : SSHSession) (d : List Nat)
    (w : WriteOutcome) (h1 : s.password_sent = false) (h2 : promptMatch d = true)
    (h3 : d ≠ []) (h4 : w ≠ WriteOutcome.ok) :
    (read_chunk s d w).sess.running = false
    ∧ (read_chunk s d w).forwarded = []
    ∧ (read_chunk s d w).ptyWrites = []
    ∧ (read_chunk s d w).stop = true
    ∧ ((read_chunk s d w).debugLogged = true ↔ w = WriteOutcome.errOther) := by
  cases w with
  | ok => exact absurd rfl h4
  | errFive => simp [read_chunk, h1, h2, h3]
  | errOther => simp [read_chunk, h1, h2, h3]

theorem c7_write_failure_stops_session_witness :
    (demoSession.password_sent = false ∧ promptMatch promptChunk = true
     ∧ promptChunk ≠ [] ∧ WriteOutcome.errFive ≠ WriteOutcome.ok)
    ∧ (read_chunk demoSession promptChunk WriteOutcome.errFive).sess.running = false :=
  ⟨⟨rfl, by decide, by decide, by decide⟩,
   (c7_write_failure_stops_session demoSession promptChunk WriteOutcome.errFive rfl
     (by decide) (by decide) (by decide)).1⟩

/-- C8 counterexample: with a token that is empty at startup but
nonempty afterwards, the client logs the missing-token error once and
never attempts a connection — the loop does not resume when the token
becomes available, contradicting the claim. -/
theorem c8_no_resume_counterexample :
    tokenLater 1 ≠ "" ∧ (run_tunnel tokenLater 5).2 = 0
    ∧ (run_tunnel tokenLater 5).1 = 1 := by decide

/-- C8 (amended): an empty bearer token at startup is the configuration
condition that halts the reconnect loop before any connection attempt,
surfaced by exactly one error log; the token is read only once, at
startup, so the loop does not resume within the process when a token
becomes available later — the process must be restarted; with a
nonempty startup token the loop performs its cycles. -/
theorem c8_missing_token_halts (tokenAt : Nat → String) (n : Nat) :
    (tokenAt 0 = "" → run_tunnel tokenAt n = (1, 0))
    ∧ (tokenAt 0 ≠ "" → run_tunnel tokenAt n = (0, n)) := by
  constructor <;> intro h <;> simp [run_tunnel, h]

theorem c8_missing_token_halts_witness :
    run_tunnel (fun _ => "") 3 = (1, 0) ∧ run_tunnel (fun _ => "x") 3 = (0, 3) :=
  ⟨(c8_missing_token_halts (fun _ => "") 3).1 rfl,
   (c8_missing_token_halts (fun _ => "x") 3).2 (by decide)⟩

theorem replaceFuel_nil (pat rep : List Char) : ∀ fuel, replaceFuel pat rep fuel [] = []
  | 0 => rfl
  | _ + 1 => rfl

theorem isPrefixOf_append_self (pat r : List Char) : pat.isPrefixOf (pat ++ r) = true := by
  induction pat with
  | nil => simp
  | cons a as ih => simp [List.isPrefixOf, ih]

theorem containsSeq_of_isPrefixOf {pat l : List Char} (h : pat.isPrefixOf l = true) :
    containsSeq pat l = true := by
  cases l with
  | nil =>
      cases pat with
      | nil => rfl
      | cons a as => simp [List.isPrefixOf] at h
  | cons c rest => simp [containsSeq, h]

theorem prefix_decomp {pat l : List Char} (h : pat.isPrefixOf l = true) :
    ∃ r, l = pat ++ r := by
  induction pat generalizing l with
  | nil => exact ⟨l, rfl⟩
  | cons a as ih =>
      cases l with
      | nil => simp [List.isPrefixOf] at h
      | cons b bs =>
          simp only [List.isPrefixOf, Bool.and_eq_true] at h
          obtain ⟨r, hr⟩ := ih h.2
          have hab : a = b := eq_of_beq h.1
          exact ⟨r, by rw [← hab, hr]; rfl⟩

theorem containsSeq_tail_false {pat : List Char} {c : Char} {rest : List Char}
    (h : containsSeq pat (c :: rest) = false) : containsSeq pat rest = false := by
  simp only [containsSeq, Bool.or_eq_false_iff] at h
  exact h.2

theorem replaceFuel_no_occurrence (pat rep : List Char) :
    ∀ (fuel : Nat) (l : List Char), l.length ≤ fuel →
      containsSeq pat l = false → replaceFuel pat rep fuel l = l
  | 0, _, _, _ => rfl
  | _ + 1, [], _, _ => rfl
  | fuel + 1, c :: rest, hf, h => by
      have hnp : ¬ (pat ≠ [] ∧ pat.isPrefixOf (c :: rest)) := by
        rintro ⟨_, hp⟩
        rw [containsSeq_of_isPrefixOf hp] at h
        exact Bool.noConfusion h
      simp only [replaceFuel]
      rw [if_neg hnp]
      have hlen : rest.length ≤ fuel := by
        simp only [List.length_cons] at hf
        omega
      rw [replaceFuel_no_occurrence pat rep fuel rest hlen (containsSeq_tail_false h)]

theorem replaceFuel_at_start (pat rep v : List Char) (hne : pat ≠ []) (fuel : Nat) :
    replaceFuel pat rep (fuel + 1) (pat ++ v) = rep ++ replaceFuel pat rep fuel v := by
  cases pat with
  | nil => exact absurd rfl hne
  | cons p ps =>
      have hd : (p :: (ps ++ v)).drop (p :: ps).length = v := by
        have hdl := List.drop_left (p :: ps) v
        simp only [List.cons_append] at hdl
        exact hdl
      rw [List.cons_append]
      simp only [replaceFuel]
      have hpre : (p :: ps).isPrefixOf (p :: (ps ++ v)) = true := by
        have hp0 := isPrefixOf_append_self (p :: ps) v
        simp only [List.cons_append] at hp0
        exact hp0
      rw [if_pos ⟨hne, hpre⟩, hd]

theorem replaceFuel_at_end (pat rep : List Char) (hne : pat ≠ []) :
    ∀ (u : List Char) (fuel : Nat), (u ++ pat).length ≤ fuel →
      containsSeq pat ((u ++ pat).dropLast) = false →
      replaceFuel pat rep fuel (u ++ pat) = u ++ rep := by
  intro u
  induction u with
  | nil =>
      intro fuel hf h
      cases fuel with
      | zero =>
          cases pat with
          | nil => exact absurd rfl hne
          | cons p ps => simp at hf
      | succ f =>
          have h0 : replaceFuel pat rep (f + 1) (pat ++ []) = rep ++ replaceFuel pat rep f [] :=
            replaceFuel_at_start pat rep [] hne f
          simp only [List.append_nil] at h0
          simp only [List.nil_append]
          rw [h0, replaceFuel_nil]
          simp
  | cons a u' ih =>
      intro fuel hf h
      have hne2 : u' ++ pat ≠ [] := by
        intro hc
        exact hne (List.append_eq_nil.mp hc).2
      have hlast : ((a :: u') ++ pat).dropLast = a :: (u' ++ pat).dropLast := by
        have := List.dropLast_append_of_ne_nil (l := u' ++ pat) [a] hne2
        simpa using this
      cases fuel with
      | zero => simp at hf
      | succ f =>
          have hnp : ¬ (pat ≠ [] ∧ pat.isPrefixOf (a :: (u' ++ pat))) := by
            rintro ⟨_, hp⟩
            obtain ⟨r, hr⟩ := prefix_decomp hp
            have hrne : r ≠ [] := by
              intro hrnil
              rw [hrnil, List.append_nil] at hr
              have : (a :: (u' ++ pat)).length = pat.length := by rw [hr]
              simp at this
              omega
            have hdl : (a :: (u' ++ pat)).dropLast = pat ++ r.dropLast := by
              rw [hr]
              exact List.dropLast_append_of_ne_nil pat hrne
            have hcon : containsSeq pat ((a :: u' ++ pat).dropLast) = true := by
              rw [List.cons_append, hdl]
              exact containsSeq_of_isPrefixOf (isPrefixOf_append_self pat r.dropLast)
            rw [hcon] at h
            exact Bool.noConfusion h
          rw [List.cons_append]
          simp only [replaceFuel]
          rw [if_neg hnp]
          rw [List.cons_append] at hf
          simp only [List.length_cons] at hf
          rw [hlast] at h
          rw [ih f (by omega) (containsSeq_tail_false h)]
          rfl

theorem replaceAll_no_occurrence (pat rep l : List Char)
    (h : containsSeq pat l = false) : replaceAll pat rep l = l :=
  replaceFuel_no_occurrence pat rep l.length l (Nat.le_refl _) h

theorem replaceAll_start (pat rep v : List Char) (hne : pat ≠ [])
    (h : containsSeq pat v = false) : replaceAll pat rep (pat ++ v) = rep ++ v := by
  cases pat with
  | nil => exact absurd rfl hne
  | cons p ps =>
      show replaceFuel (p :: ps) rep ((p :: ps) ++ v).length ((p :: ps) ++ v) = rep ++ v
      have hl : ((p :: ps) ++ v).length = (ps ++ v).length + 1 := by simp
      rw [hl, replaceFuel_at_start (p :: ps) rep v (by simp) _]
      rw [replaceFuel_no_occurrence (p :: ps) rep (ps ++ v).length v
        (by simp [List.length_append]) h]

theorem replaceAll_end (pat rep u : List Char) (hne : pat ≠ [])
    (h : containsSeq pat ((u ++ pat).dropLast) = false) :
    replaceAll pat rep (u ++ pat) = u ++ rep :=
  replaceFuel_at_end pat rep hne u (u ++ pat).length (Nat.le_refl _) h

/-- C5 counterexample: for the endpoint https://api.example.com/api the
code removes every occurrence of the substring "/api" — including the
one inside "//api.example.com" — so the host is altered and the derived
URL is not the claimed "wss://api.example.com/ws?..."; the code actually
yields "wss:/.example.com/ws?type=agent&token=t". -/
theorem c5_ws_url_counterexample :
    get_ws_url "https://api.example.com/api".toList "t".toList
        ≠ "wss://api.example.com/ws?type=agent&token=t".toList
    ∧ get_ws_url "https://api.example.com/api".toList "t".toList
        = "wss:/.example.com/ws?type=agent&token=t".toList := by decide

/-- C5 (amended): the connection URL derivation substitutes ws(s) for
http(s) and removes every occurrence of the substring "/api" from the
resulting URL — not only a trailing path segment. For endpoints in
which "/api" occurs only as the trailing segment (and which contain no
other scheme-substring occurrence), the result is as originally
claimed: wss scheme, host left unchanged, fixed path plus agent type
and bearer token appended. -/
theorem c5_ws_url_trailing_api (host token : List Char)
    (h1 : containsSeq "https://".toList (host ++ "/api".toList) = false)
    (h2 : containsSeq "http://".toList
        ("wss://".toList ++ (host ++ "/api".toList)) = false)
    (h3 : containsSeq "/api".toList
        ((("wss://".toList ++ host) ++ "/api".toList).dropLast) = false) :
    get_ws_url ("https://".toList ++ (host ++ "/api".toList)) token
      = ("wss://".toList ++ host) ++ ("/ws?type=agent&token=".toList ++ token) := by
  show (replaceAll "/api".toList []
      (replaceAll "http://".toList "ws://".toList
        (replaceAll "https://".toList "wss://".toList
          ("https://".toList ++ (host ++ "/api".toList))))
      ++ "/ws?type=agent&token=".toList) ++ token
    = ("wss://".toList ++ host) ++ ("/ws?type=agent&token=".toList ++ token)
  rw [replaceAll_start _ _ _ (by decide) h1]
  rw [replaceAll_no_occurrence _ _ _ h2]
  rw [show "wss://".toList ++ (host ++ "/api".toList)
      = ("wss://".toList ++ host) ++ "/api".toList from by rw [List.append_assoc]]
  rw [replaceAll_end _ _ _ (by decide) h3]
  simp

theorem c5_ws_url_trailing_api_witness :
    (containsSeq "https://".toList
        ("opn.gruppen.com.br".toList ++ "/api".toList) = false
     ∧ containsSeq "http://".toList
        ("wss://".toList ++ ("opn.gruppen.com.br".toList ++ "/api".toList)) = false
     ∧ containsSeq "/api".toList
        ((("wss://".toList ++ "opn.gruppen.com.br".toList)
          ++ "/api".toList).dropLast) = false)
    ∧ get_ws_url ("https://".toList ++ ("opn.gruppen.com.br".toList ++ "/api".toList))
        "tok".toList
      = ("wss://".toList ++ "opn.gruppen.com.br".toList)
          ++ ("/ws?type=agent&token=".toList ++ "tok".toList) :=
  ⟨⟨by decide, by decide, by decide⟩,
   c5_ws_url_trailing_api "opn.gruppen.com.br".toList "tok".toList
     (by decide) (by decide) (by decide)⟩
